import Mathlib

/-!
Verification of the deeplearnjs GPGPU execution engine against its
natural-language specification.

The embedding covers two source modules:

* `GPGPUContext` (the WebGL context wrapper): stateful TypeScript class code
  is embedded as explicit state passing.  GL objects (programs, textures) are
  modelled as `Nat` handles; every externally visible GL call an operation
  performs is recorded in an effect trace (`List GLEffect`), and a thrown
  exception is an `Except.error`.  An operation that throws returns no new
  state and no effects, mirroring the fact that the source raises before
  mutating anything.
* `gpgpu_math` (compileProgram / validateBinaryAndProgram / runProgram /
  makeShaderKey): `runProgram` and `compileProgram` thread the context state
  explicitly (the source reaches the context through `binary.gpgpu`).
-/

/-- Externally visible GL-level action of a context operation.  Each
constructor corresponds to one call into `webgl_util` / `gpgpu_util` or to a
`console.warn` in the source of `GPGPUContext`. -/
inductive GLEffect where
  | warn (message : String)
  | finish
  | bindFramebufferNull
  | deleteFramebuffer
  | bindArrayBufferNull
  | deleteVertexBuffer
  | bindElementArrayBufferNull
  | deleteIndexBuffer
  | loseContext
  | enableDebugErrorChecking (enabled : Bool)
  | createTexture (rows columns : Nat) (packed : Bool)
  | uploadPixels (texture : Nat)
  | uploadMatrix (texture rows columns : Nat) (packed : Bool)
  | readPixels (rows columns : Nat) (packed : Bool)
  | bindColorTextureToFramebuffer (texture : Nat)
  | unbindColorTextureFromFramebuffer
  | deleteTexture (texture : Nat)
  | compileAndLink (fragmentShaderSource : String)
  | validateProgram
  | validateFramebuffer
  | deleteProgramGL (program : Nat)
  | useProgram (program : Option Nat)
  | getUniformLocationGL (uniformName : String)
  | bindTextureToUniformSampler (texture : Nat) (uniformName : String) (textureUnit : Nat)
  | viewport (x y width height : Nat)
  | scissor (x y width height : Nat)
  | bindVertexAttribs
  | drawElements
  | customSetup
deriving DecidableEq, Repr

/-- Errors thrown by the engine.  `disposedContext` and `noProgramSet` are the
two `UsageError`s of `GPGPUContext`; the three mismatch constructors are the
errors `validateBinaryAndProgram` throws, carrying exactly the data the
source interpolates into the message. -/
inductive EngineError where
  | disposedContext
  | noProgramSet
  | notImplemented (what : String)
  | arityMismatch (compiledCount executedCount : Nat)
  | logicalShapeMismatch (compiledShape currentShape : List Nat)
  | textureShapeMismatch (compiledTexShape currentTexShape : Nat × Nat)
deriving DecidableEq, Repr

/-- State of the `GPGPUContext` class.  `fbAttachment` models the colour
attachment of the context-owned framebuffer (GL state in the source, not a
class field); `nextProgramId` models allocation of fresh GL program handles. -/
structure GPGPUContext where
  outputTexture : Option Nat := none
  program : Option Nat := none
  disposed : Bool := false
  autoDebugValidate : Bool := false
  fbAttachment : Option Nat := none
  nextProgramId : Nat := 0
deriving DecidableEq, Repr

namespace GPGPUContext

/-- Result of a context operation: either a thrown error, or the new context
state together with the trace of GL calls the operation performed. -/
abbrev OpResult := Except EngineError (GPGPUContext × List GLEffect)

def throwIfDisposed (ctx : GPGPUContext) : Except EngineError Unit :=
  if ctx.disposed then .error .disposedContext else .ok ()

def throwIfNoProgram (ctx : GPGPUContext) : Except EngineError Unit :=
  if ctx.program.isNone then .error .noProgramSet else .ok ()

def programLeakWarning : String :=
  "Disposing a GPGPUContext that still has a bound WebGLProgram." ++
  " This is probably a resource leak, delete the program with " ++
  "GPGPUContext.deleteProgram before disposing."

def outputTextureLeakWarning : String :=
  "Disposing a GPGPUContext that still has a bound output matrix " ++
  "texture.  This is probably a resource leak, delete the output " ++
  "matrix texture with GPGPUContext.deleteMatrixTexture before " ++
  "disposing."

def dispose (ctx : GPGPUContext) : OpResult := do
  throwIfDisposed ctx
  let programWarning :=
    if ctx.program.isSome then [GLEffect.warn programLeakWarning] else []
  let textureWarning :=
    if ctx.outputTexture.isSome then [GLEffect.warn outputTextureLeakWarning] else []
  .ok ({ ctx with disposed := true },
    programWarning ++ textureWarning ++
    [GLEffect.finish, GLEffect.bindFramebufferNull, GLEffect.deleteFramebuffer,
     GLEffect.bindArrayBufferNull, GLEffect.deleteVertexBuffer,
     GLEffect.bindElementArrayBufferNull, GLEffect.deleteIndexBuffer,
     GLEffect.loseContext])

def enableAutomaticDebugValidation (ctx : GPGPUContext) (enabled : Bool) : OpResult :=
  .ok ({ ctx with autoDebugValidate := enabled },
       [GLEffect.enableDebugErrorChecking enabled])

def createMatrixTexture (ctx : GPGPUContext) (rows columns : Nat) : OpResult := do
  throwIfDisposed ctx
  .ok (ctx, [GLEffect.createTexture rows columns false])

def uploadPixelDataToTexture (ctx : GPGPUContext) (texture : Nat) (_pixels : Nat) :
    OpResult := do
  throwIfDisposed ctx
  .ok (ctx, [GLEffect.uploadPixels texture])

def createPackedMatrixTexture (ctx : GPGPUContext) (rows columns : Nat) : OpResult := do
  throwIfDisposed ctx
  .ok (ctx, [GLEffect.createTexture rows columns true])

def deleteMatrixTexture (ctx : GPGPUContext) (texture : Nat) : OpResult := do
  throwIfDisposed ctx
  if ctx.outputTexture = some texture then
    .ok ({ ctx with outputTexture := none, fbAttachment := none },
         [GLEffect.unbindColorTextureFromFramebuffer, GLEffect.deleteTexture texture])
  else
    .ok (ctx, [GLEffect.deleteTexture texture])

def uploadMatrixToTexture (ctx : GPGPUContext) (texture rows columns : Nat)
    (_matrix : Nat) : OpResult := do
  throwIfDisposed ctx
  .ok (ctx, [GLEffect.uploadMatrix texture rows columns false])

def uploadMatrixToPackedTexture (ctx : GPGPUContext) (texture rows columns : Nat)
    (_matrix : Nat) : OpResult := do
  throwIfDisposed ctx
  .ok (ctx, [GLEffect.uploadMatrix texture rows columns true])

def downloadMatrixDriver (ctx : GPGPUContext) (texture : Nat)
    (downloadAndDecode : List GLEffect) : OpResult := do
  throwIfDisposed ctx
  let restore :=
    match ctx.outputTexture with
    | some outTex =>
        [GLEffect.bindColorTextureToFramebuffer outTex] ++
        (if ctx.autoDebugValidate then [GLEffect.validateFramebuffer] else [])
    | none => [GLEffect.unbindColorTextureFromFramebuffer]
  .ok ({ ctx with fbAttachment := ctx.outputTexture },
       GLEffect.bindColorTextureToFramebuffer texture :: downloadAndDecode ++ restore)

def downloadMatrixFromTexture (ctx : GPGPUContext) (texture rows columns : Nat) :
    OpResult :=
  downloadMatrixDriver ctx texture [GLEffect.readPixels rows columns false]

def downloadMatrixFromPackedTexture (ctx : GPGPUContext) (texture rows columns : Nat) :
    OpResult :=
  downloadMatrixDriver ctx texture [GLEffect.readPixels rows columns true]

def createProgram (ctx : GPGPUContext) (fragmentShaderSource : String) :
    Except EngineError (Nat × GPGPUContext × List GLEffect) := do
  throwIfDisposed ctx
  .ok (ctx.nextProgramId,
       { ctx with nextProgramId := ctx.nextProgramId + 1 },
       [GLEffect.compileAndLink fragmentShaderSource] ++
       (if ctx.autoDebugValidate then [GLEffect.validateProgram] else []))

def deleteProgram (ctx : GPGPUContext) (programArg : Option Nat) : OpResult := do
  throwIfDisposed ctx
  let ctx1 := if programArg = ctx.program then { ctx with program := none } else ctx
  match programArg with
  | some p => .ok (ctx1, [GLEffect.deleteProgramGL p])
  | none => .ok (ctx1, [])

def setProgram (ctx : GPGPUContext) (programArg : Option Nat) : OpResult := do
  throwIfDisposed ctx
  .ok ({ ctx with program := programArg },
       (if programArg.isSome && ctx.autoDebugValidate then [GLEffect.validateProgram]
        else []) ++
       [GLEffect.useProgram programArg])

def getUniformLocation (ctx : GPGPUContext) (uniformName : String) : OpResult := do
  throwIfDisposed ctx
  throwIfNoProgram ctx
  .ok (ctx, [GLEffect.getUniformLocationGL uniformName])

def setInputMatrixTexture (ctx : GPGPUContext) (inputMatrixTexture : Nat)
    (uniformName : String) (textureUnit : Nat) : OpResult := do
  throwIfDisposed ctx
  throwIfNoProgram ctx
  .ok (ctx, [GLEffect.bindTextureToUniformSampler inputMatrixTexture uniformName
              textureUnit])

def setOutputMatrixTextureDriver (ctx : GPGPUContext)
    (outputMatrixTextureMaybePacked width height : Nat) : OpResult := do
  throwIfDisposed ctx
  .ok ({ ctx with outputTexture := some outputMatrixTextureMaybePacked,
                  fbAttachment := some outputMatrixTextureMaybePacked },
       [GLEffect.bindColorTextureToFramebuffer outputMatrixTextureMaybePacked] ++
       (if ctx.autoDebugValidate then [GLEffect.validateFramebuffer] else []) ++
       [GLEffect.viewport 0 0 width height, GLEffect.scissor 0 0 width height])

def setOutputMatrixTexture (ctx : GPGPUContext) (outputMatrixTexture rows columns : Nat) :
    OpResult :=
  setOutputMatrixTextureDriver ctx outputMatrixTexture columns rows

/-- Modelled from the spec: `tex_util.getPackedMatrixTextureShapeWidthHeight`
is not among the sources; the spec only says packing stores multiple scalars
per physical cell.  Any fixed function of `(rows, columns)` is adequate here:
no claim depends on the packed extents. -/
def getPackedMatrixTextureShapeWidthHeight (rows columns : Nat) : Nat × Nat :=
  ((columns + 1) / 2, (rows + 1) / 2)

def setOutputPackedMatrixTexture (ctx : GPGPUContext)
    (outputPackedMatrixTexture rows columns : Nat) : OpResult := do
  throwIfDisposed ctx
  let (width, height) := getPackedMatrixTextureShapeWidthHeight rows columns
  setOutputMatrixTextureDriver ctx outputPackedMatrixTexture width height

def setOutputMatrixWriteRegionDriver (ctx : GPGPUContext) (x y width height : Nat) :
    OpResult := do
  throwIfDisposed ctx
  .ok (ctx, [GLEffect.scissor x y width height])

def setOutputMatrixWriteRegion (ctx : GPGPUContext)
    (startRow numRows startColumn numColumns : Nat) : OpResult :=
  setOutputMatrixWriteRegionDriver ctx startColumn startRow numColumns numRows

def setOutputPackedMatrixWriteRegion (_ctx : GPGPUContext)
    (_startRow _numRows _startColumn _numColumns : Nat) : OpResult :=
  .error (.notImplemented "setOutputPackedMatrixWriteRegion not implemented.")

def debugValidateEffects (ctx : GPGPUContext) : List GLEffect :=
  (if ctx.program.isSome then [GLEffect.validateProgram] else []) ++
  [GLEffect.validateFramebuffer]

def debugValidate (ctx : GPGPUContext) : OpResult :=
  .ok (ctx, debugValidateEffects ctx)

def executeProgram (ctx : GPGPUContext) : OpResult := do
  throwIfDisposed ctx
  throwIfNoProgram ctx
  .ok (ctx, [GLEffect.bindVertexAttribs] ++
       (if ctx.autoDebugValidate then debugValidateEffects ctx else []) ++
       [GLEffect.drawElements])

def blockUntilAllProgramsCompleted (ctx : GPGPUContext) : OpResult := do
  throwIfDisposed ctx
  .ok (ctx, [GLEffect.finish])

end GPGPUContext

/-! ## The `gpgpu_math` module -/

/-- Logical shape plus backing texture shape of an array realized on the GPU
(`shader_compiler.ShapeInfo`).  `getTextureShapeRC` returns a two-element
array `[rows, columns]`, embedded as a pair. -/
structure ShapeInfo where
  logicalShape : List Nat
  texShape : Nat × Nat
deriving DecidableEq, Repr

/-- The part of an `NDArray` that `gpgpu_math` consumes: its logical shape,
the `(rows, columns)` texture shape reported by `getTextureShapeRC()`, and
the GL texture handle returned by `getTexture()`. -/
structure NDArray where
  shape : List Nat
  texShapeRC : Nat × Nat
  texture : Nat
deriving DecidableEq, Repr

/-- The `GPGPUProgram` descriptor interface.  `constructorName` embeds
`program.constructor.name` (the concrete class identifies the operation);
`params` holds the elements of the `params` array after `toString()`. -/
structure GPGPUProgram where
  constructorName : String
  variableNames : List String
  outputShape : List Nat
  params : List String
  userCode : String
  supportsBroadcasting : Option Bool
deriving DecidableEq, Repr

/-- The `GPGPUBinary` record.  The source also stores the `gpgpu` context in
the binary; in this state-passing embedding the context is an explicit
argument of `runProgram` instead. -/
structure GPGPUBinary where
  webGLProgram : Nat
  program : GPGPUProgram
  source : String
  inShapeInfos : List ShapeInfo
  outShapeInfo : ShapeInfo
deriving DecidableEq, Repr

/-- Modelled from the spec: `shader_compiler.makeShader` is not among the
sources.  Section 4.2 specifies it as a deterministic function of the operand
`(name, ShapeInfo)` list, the output `ShapeInfo`, the user expression and the
broadcasting flag; identical arguments must yield identical source.  A
canonical deterministic rendering of the arguments stands in for the
generated GLSL, which no claim inspects. -/
def makeShader (inputInfos : List (String × ShapeInfo)) (outShapeInfo : ShapeInfo)
    (userCode : String) (broadcast : Bool) : String :=
  reprStr (inputInfos, outShapeInfo, userCode, broadcast)

/-- `gpgpu_math.compileProgram`.  Returns the binary, the context after the
`createProgram` call, and the GL effect trace of that call. -/
def compileProgram (gpgpu : GPGPUContext) (program : GPGPUProgram)
    (inputs : List NDArray) (output : NDArray) :
    Except EngineError (GPGPUBinary × GPGPUContext × List GLEffect) := do
  let userCode := program.userCode
  let inputInfos := inputs.enum.map fun p =>
    (program.variableNames.getD p.1 "",
     ShapeInfo.mk p.2.shape p.2.texShapeRC)
  let inShapeInfos := inputInfos.map Prod.snd
  let outShapeInfo : ShapeInfo := ⟨output.shape, output.texShapeRC⟩
  let source := makeShader inputInfos outShapeInfo userCode
    (program.supportsBroadcasting == some true)
  let (webGLProgram, gpgpu1, effects) ← gpgpu.createProgram source
  .ok ({ webGLProgram := webGLProgram, program := program, source := source,
         inShapeInfos := inShapeInfos, outShapeInfo := outShapeInfo },
       gpgpu1, effects)

/-- Body of the `forEach` in `validateBinaryAndProgram`: the logical shapes
are compared first, then the texture shapes, and the first difference throws
an error carrying both compared values. -/
def validatePair (s : ShapeInfo) (input : NDArray) : Except EngineError Unit :=
  if s.logicalShape ≠ input.shape then
    .error (.logicalShapeMismatch s.logicalShape input.shape)
  else if s.texShape ≠ input.texShapeRC then
    .error (.textureShapeMismatch s.texShape input.texShapeRC)
  else
    .ok ()

def validatePairs : List ShapeInfo → List NDArray → Except EngineError Unit
  | [], _ => .ok ()
  | _, [] => .ok ()
  | s :: ss, x :: xs => do
    validatePair s x
    validatePairs ss xs

/-- `validateBinaryAndProgram` of `gpgpu_math`: the arity check comes first;
with equal arities the pairs are checked left to right. -/
def validateBinaryAndProgram (shapeInfos : List ShapeInfo) (inputs : List NDArray) :
    Except EngineError Unit :=
  if shapeInfos.length ≠ inputs.length then
    .error (.arityMismatch shapeInfos.length inputs.length)
  else
    validatePairs shapeInfos inputs

/-- The `inputs.forEach` loop of `runProgram`, binding input `i` to sampler
`variableNames[i]` on texture unit `i`. -/
def bindInputs (names : List String) :
    GPGPUContext → List NDArray → Nat →
    Except EngineError (GPGPUContext × List GLEffect)
  | ctx, [], _ => .ok (ctx, [])
  | ctx, input :: rest, i => do
    let (ctx1, e) ← ctx.setInputMatrixTexture input.texture (names.getD i "") i
    let (ctx2, es) ← bindInputs names ctx1 rest (i + 1)
    .ok (ctx2, e ++ es)

/-- `gpgpu_math.runProgram`.  The optional `customSetup` callback is embedded
as a flag (`hasCustomSetup`): its invocation is recorded as a `customSetup`
effect between the input binding and the draw, its body being caller code
outside this module. -/
def runProgram (gpgpu : GPGPUContext) (binary : GPGPUBinary) (inputs : List NDArray)
    (output : NDArray) (hasCustomSetup : Bool) :
    Except EngineError (GPGPUContext × List GLEffect) := do
  validateBinaryAndProgram binary.inShapeInfos inputs
  validateBinaryAndProgram [binary.outShapeInfo] [output]
  let outTex := output.texture
  let outTexShape := output.texShapeRC
  let (ctx1, e1) ← gpgpu.setOutputMatrixTexture outTex outTexShape.1 outTexShape.2
  let (ctx2, e2) ← ctx1.setProgram (some binary.webGLProgram)
  let (ctx3, e3) ← bindInputs binary.program.variableNames ctx2 inputs 0
  let e4 := if hasCustomSetup then [GLEffect.customSetup] else []
  let (ctx4, e5) ← ctx3.executeProgram
  .ok (ctx4, e1 ++ e2 ++ e3 ++ e4 ++ e5)

/-- JavaScript `Array.prototype.join(sep)`: elements concatenated with the
separator between consecutive elements. -/
def joinSep (sep : String) : List String → String
  | [] => ""
  | [a] => a
  | a :: rest => a ++ sep ++ joinSep sep rest

/-- JavaScript coercion of a numeric array to a string: elements joined by a
comma.  Applied to `x.shape` inside `makeShaderKey`. -/
def shapeToString (shape : List Nat) : String :=
  joinSep "," (shape.map toString)

/-- JavaScript coercion of the two-element `[rows, columns]` array. -/
def texShapeToString (texShape : Nat × Nat) : String :=
  toString texShape.1 ++ "," ++ toString texShape.2

/-- One element of `keyStart` in `makeShaderKey`:
`x.shape + '_' + x.getTextureShapeRC()`. -/
def arraySegment (x : NDArray) : String :=
  shapeToString x.shape ++ "_" ++ texShapeToString x.texShapeRC

/-- `gpgpu_math.makeShaderKey`. -/
def makeShaderKey (program : GPGPUProgram) (inputs : List NDArray)
    (output : NDArray) : String :=
  let keyStart := (inputs ++ [output]).map arraySegment
  let keyEnd := program.params
  let key := [program.constructorName,
              toString (program.supportsBroadcasting == some true)] ++
             keyStart ++ keyEnd
  joinSep "_" key

/-! ## Decimal numerals: `Nat.repr` (the display JavaScript and Lean share for
naturals) is injective.  Needed for the key-sensitivity claim. -/

/-- Decimal digit characters of `n`, most significant first; a structural
recursion equivalent of the fuel-based `Nat.toDigitsCore`. -/
def decDigits (n : Nat) : List Char :=
  if _h : n < 10 then [Nat.digitChar n]
  else decDigits (n / 10) ++ [Nat.digitChar (n % 10)]
termination_by n
decreasing_by exact Nat.div_lt_self (by omega) (by omega)

theorem decDigits_of_lt {n : Nat} (h : n < 10) : decDigits n = [Nat.digitChar n] := by
  rw [decDigits]
  simp [h]

theorem decDigits_of_ge {n : Nat} (h : ¬ n < 10) :
    decDigits n = decDigits (n / 10) ++ [Nat.digitChar (n % 10)] := by
  rw [decDigits]
  simp [h]

theorem toDigitsCore_eq_decDigits :
    ∀ (fuel n : Nat) (l : List Char), n < fuel →
      Nat.toDigitsCore 10 fuel n l = decDigits n ++ l := by
  intro fuel
  induction fuel with
  | zero => exact fun n l h => absurd h (Nat.not_lt_zero n)
  | succ f ih =>
    intro n l h
    by_cases h10 : n / 10 = 0
    · have hn : n < 10 := by
        have hm : n % 10 < 10 := Nat.mod_lt n (by omega)
        have hd := Nat.div_add_mod n 10
        rw [h10] at hd
        omega
      simp [Nat.toDigitsCore, h10, decDigits_of_lt hn, Nat.mod_eq_of_lt hn]
    · have hge : ¬ n < 10 := fun hc => h10 (Nat.div_eq_of_lt hc)
      have hlt : n / 10 < f := by
        have hds := Nat.div_lt_self (show 0 < n by omega) (show 1 < 10 by omega)
        omega
      simp only [Nat.toDigitsCore, h10, if_false]
      rw [ih (n / 10) _ hlt, decDigits_of_ge hge]
      simp

theorem repr_eq_decDigits (n : Nat) : Nat.repr n = (decDigits n).asString := by
  unfold Nat.repr Nat.toDigits
  rw [toDigitsCore_eq_decDigits (n + 1) n [] (Nat.lt_succ_self n), List.append_nil]

/-- Reading a decimal digit string back as a number. -/
def decStep (a : Nat) (c : Char) : Nat := 10 * a + (c.toNat - 48)

def ofDecChars (l : List Char) : Nat := l.foldl decStep 0

theorem digitChar_toNat : ∀ d : Nat, d < 10 → (Nat.digitChar d).toNat = 48 + d := by
  decide

theorem foldl_decStep_decDigits :
    ∀ (n a : Nat), List.foldl decStep a (decDigits n) =
      a * 10 ^ (decDigits n).length + n := by
  intro n
  induction n using Nat.strong_induction_on with
  | _ n ih =>
    intro a
    by_cases h : n < 10
    · rw [decDigits_of_lt h]
      show decStep a (Nat.digitChar n) = a * 10 ^ ([Nat.digitChar n].length) + n
      unfold decStep
      rw [digitChar_toNat n h]
      simp only [List.length_singleton, pow_one]
      omega
    · rw [decDigits_of_ge h, List.foldl_append]
      have hdiv : n / 10 < n := Nat.div_lt_self (by omega) (by omega)
      have hm : n % 10 < 10 := Nat.mod_lt n (by omega)
      rw [ih (n / 10) hdiv a]
      show decStep (a * 10 ^ (decDigits (n / 10)).length + n / 10) (Nat.digitChar (n % 10))
          = a * 10 ^ ((decDigits (n / 10) ++ [Nat.digitChar (n % 10)]).length) + n
      unfold decStep
      rw [digitChar_toNat (n % 10) hm]
      have hlen : (decDigits (n / 10) ++ [Nat.digitChar (n % 10)]).length
          = (decDigits (n / 10)).length + 1 := by simp
      rw [hlen]
      have hr : 48 + n % 10 - 48 = n % 10 := by omega
      rw [hr, pow_succ]
      have expand : 10 * (a * 10 ^ (decDigits (n / 10)).length + n / 10) + n % 10
          = a * (10 ^ (decDigits (n / 10)).length * 10) + (10 * (n / 10) + n % 10) := by
        ring
      rw [expand, Nat.div_add_mod n 10]

theorem ofDecChars_decDigits (n : Nat) : ofDecChars (decDigits n) = n := by
  unfold ofDecChars
  rw [foldl_decStep_decDigits n 0]
  simp

theorem decDigits_injective {m n : Nat} (h : decDigits m = decDigits n) : m = n := by
  have h2 := congrArg ofDecChars h
  rwa [ofDecChars_decDigits, ofDecChars_decDigits] at h2

theorem natToString_injective {m n : Nat} (h : toString m = toString n) : m = n := by
  have h1 : Nat.repr m = Nat.repr n := h
  rw [repr_eq_decDigits, repr_eq_decDigits] at h1
  exact decDigits_injective (congrArg String.data h1)

/-! ## String cancellation and `joinSep` positional injectivity -/

theorem strCancelLeft {p x y : String} (h : p ++ x = p ++ y) : x = y := by
  have hd := congrArg String.data h
  simp only [String.data_append] at hd
  exact String.ext (List.append_cancel_left hd)

theorem strCancelRight {x y s : String} (h : x ++ s = y ++ s) : x = y := by
  have hd := congrArg String.data h
  simp only [String.data_append] at hd
  exact String.ext (List.append_cancel_right hd)

theorem strCancelMid {p s x y : String} (h : p ++ (x ++ s) = p ++ (y ++ s)) : x = y :=
  strCancelRight (strCancelLeft h)

def joinPre (sep : String) : List String → String
  | [] => ""
  | l => joinSep sep l ++ sep

def joinSuf (sep : String) : List String → String
  | [] => ""
  | l => sep ++ joinSep sep l

theorem joinSep_cons_cons (sep a b : String) (l : List String) :
    joinSep sep (a :: b :: l) = a ++ sep ++ joinSep sep (b :: l) := rfl

theorem joinSep_split (sep : String) :
    ∀ (l1 : List String) (m : String) (l2 : List String),
      joinSep sep (l1 ++ m :: l2) = joinPre sep l1 ++ (m ++ joinSuf sep l2) := by
  intro l1
  induction l1 with
  | nil =>
    intro m l2
    cases l2 with
    | nil => simp [joinSep, joinPre, joinSuf]
    | cons b l2 => simp [joinSep_cons_cons, joinPre, joinSuf, String.append_assoc]
  | cons a l1 ih =>
    intro m l2
    cases l1 with
    | nil =>
      cases l2 with
      | nil => simp [joinSep, joinPre, joinSuf, String.append_assoc]
      | cons b l2 => simp [joinSep_cons_cons, joinSep, joinPre, joinSuf, String.append_assoc]
    | cons a1 l1 =>
      rw [List.cons_append, List.cons_append]
      rw [joinSep_cons_cons sep a a1 (l1 ++ m :: l2)]
      rw [show a1 :: (l1 ++ m :: l2) = (a1 :: l1) ++ m :: l2 from rfl] 
      rw [ih m l2]
      simp [joinPre, joinSep_cons_cons, String.append_assoc]

theorem joinSep_inj_at (sep : String) (l1 : List String) {m m' : String}
    (l2 : List String)
    (h : joinSep sep (l1 ++ m :: l2) = joinSep sep (l1 ++ m' :: l2)) : m = m' := by
  rw [joinSep_split sep l1 m l2, joinSep_split sep l1 m' l2] at h
  exact strCancelRight (strCancelLeft h)

/-! ## Positional lemmas about `makeShaderKey` -/

theorem makeShaderKey_input_seg_inj (p : GPGPUProgram) (xs ys : List NDArray)
    {x x' : NDArray} (o : NDArray)
    (h : makeShaderKey p (xs ++ x :: ys) o = makeShaderKey p (xs ++ x' :: ys) o) :
    arraySegment x = arraySegment x' := by
  simp only [makeShaderKey] at h
  have e1 : ∀ z : NDArray,
      [p.constructorName, toString (p.supportsBroadcasting == some true)] ++
        ((xs ++ z :: ys) ++ [o]).map arraySegment ++ p.params
      = ([p.constructorName, toString (p.supportsBroadcasting == some true)] ++
          xs.map arraySegment) ++ arraySegment z ::
          ((ys ++ [o]).map arraySegment ++ p.params) := by
    intro z
    simp [List.map_append, List.append_assoc]
  rw [e1 x, e1 x'] at h
  exact joinSep_inj_at "_" _ _ h

theorem makeShaderKey_output_seg_inj (p : GPGPUProgram) (inputs : List NDArray)
    {o o' : NDArray}
    (h : makeShaderKey p inputs o = makeShaderKey p inputs o') :
    arraySegment o = arraySegment o' := by
  simp only [makeShaderKey] at h
  have e1 : ∀ z : NDArray,
      [p.constructorName, toString (p.supportsBroadcasting == some true)] ++
        (inputs ++ [z]).map arraySegment ++ p.params
      = ([p.constructorName, toString (p.supportsBroadcasting == some true)] ++
          inputs.map arraySegment) ++ arraySegment z :: p.params := by
    intro z
    simp [List.map_append, List.append_assoc]
  rw [e1 o, e1 o'] at h
  exact joinSep_inj_at "_" _ _ h

theorem arraySegment_shape_inj {x x' : NDArray}
    (h : arraySegment x = arraySegment x') (ht : x.texShapeRC = x'.texShapeRC) :
    shapeToString x.shape = shapeToString x'.shape := by
  unfold arraySegment at h
  rw [ht] at h
  exact strCancelRight (strCancelRight h)

theorem arraySegment_tex_inj {x x' : NDArray}
    (h : arraySegment x = arraySegment x') (hs : x.shape = x'.shape) :
    texShapeToString x.texShapeRC = texShapeToString x'.texShapeRC := by
  unfold arraySegment at h
  rw [hs] at h
  exact strCancelLeft h

theorem shapeToString_dim_inj (ds : List Nat) {d d' : Nat} (es : List Nat)
    (h : shapeToString (ds ++ d :: es) = shapeToString (ds ++ d' :: es)) : d = d' := by
  unfold shapeToString at h
  rw [List.map_append, List.map_cons, List.map_append, List.map_cons] at h
  exact natToString_injective (joinSep_inj_at "," (ds.map toString) (es.map toString) h)

theorem texShapeToString_fst_inj {r r' c : Nat}
    (h : texShapeToString (r, c) = texShapeToString (r', c)) : r = r' := by
  simp only [texShapeToString] at h
  exact natToString_injective (strCancelRight (strCancelRight h))

theorem texShapeToString_snd_inj {r c c' : Nat}
    (h : texShapeToString (r, c) = texShapeToString (r, c')) : c = c' := by
  simp only [texShapeToString] at h
  exact natToString_injective (strCancelLeft h)

/-- The shape data on which a key segment depends. -/
def segOfData (p : List Nat × (Nat × Nat)) : String :=
  shapeToString p.1 ++ "_" ++ texShapeToString p.2

/-- C3: `makeShaderKey` is a pure function of the operation identity, the
broadcasting flag, the auxiliary params and each array's
`(logicalShape, textureShape)`: identical such data gives identical keys
(whatever the texture handles, user code or declared output shape), and a
change of any single dimension of any logical or texture shape, of any input
or of the output, changes the key. -/
theorem makeShaderKey_pure_and_shape_sensitive :
    (∀ (p1 p2 : GPGPUProgram) (inputs1 inputs2 : List NDArray) (o1 o2 : NDArray),
      p1.constructorName = p2.constructorName →
      (p1.supportsBroadcasting == some true) = (p2.supportsBroadcasting == some true) →
      p1.params = p2.params →
      inputs1.map (fun x => (x.shape, x.texShapeRC)) =
        inputs2.map (fun x => (x.shape, x.texShapeRC)) →
      o1.shape = o2.shape → o1.texShapeRC = o2.texShapeRC →
      makeShaderKey p1 inputs1 o1 = makeShaderKey p2 inputs2 o2) ∧
    (∀ (p : GPGPUProgram) (xs ys : List NDArray) (x o : NDArray)
        (ds es : List Nat) (d d' : Nat),
      x.shape = ds ++ d :: es → d ≠ d' →
      makeShaderKey p (xs ++ x :: ys) o ≠
        makeShaderKey p (xs ++ { x with shape := ds ++ d' :: es } :: ys) o) ∧
    (∀ (p : GPGPUProgram) (xs ys : List NDArray) (x o : NDArray) (r c r' : Nat),
      x.texShapeRC = (r, c) → r ≠ r' →
      makeShaderKey p (xs ++ x :: ys) o ≠
        makeShaderKey p (xs ++ { x with texShapeRC := (r', c) } :: ys) o) ∧
    (∀ (p : GPGPUProgram) (xs ys : List NDArray) (x o : NDArray) (r c c' : Nat),
      x.texShapeRC = (r, c) → c ≠ c' →
      makeShaderKey p (xs ++ x :: ys) o ≠
        makeShaderKey p (xs ++ { x with texShapeRC := (r, c') } :: ys) o) ∧
    (∀ (p : GPGPUProgram) (inputs : List NDArray) (o : NDArray)
        (ds es : List Nat) (d d' : Nat),
      o.shape = ds ++ d :: es → d ≠ d' →
      makeShaderKey p inputs o ≠
        makeShaderKey p inputs { o with shape := ds ++ d' :: es }) ∧
    (∀ (p : GPGPUProgram) (inputs : List NDArray) (o : NDArray) (r c r' : Nat),
      o.texShapeRC = (r, c) → r ≠ r' →
      makeShaderKey p inputs o ≠
        makeShaderKey p inputs { o with texShapeRC := (r', c) }) ∧
    (∀ (p : GPGPUProgram) (inputs : List NDArray) (o : NDArray) (r c c' : Nat),
      o.texShapeRC = (r, c) → c ≠ c' →
      makeShaderKey p inputs o ≠
        makeShaderKey p inputs { o with texShapeRC := (r, c') }) := by
  refine ⟨?purity, ?inDim, ?inTexR, ?inTexC, ?outDim, ?outTexR, ?outTexC⟩
  case purity =>
    intro p1 p2 inputs1 inputs2 o1 o2 hcn hbc hpar hins hos hot
    have hmap : ∀ l : List NDArray,
        l.map arraySegment =
          (l.map (fun x => (x.shape, x.texShapeRC))).map segOfData := by
      intro l
      rw [List.map_map]
      rfl
    simp only [makeShaderKey]
    rw [hcn, hbc, hpar]
    have hsegs : (inputs1 ++ [o1]).map arraySegment =
        (inputs2 ++ [o2]).map arraySegment := by
      rw [List.map_append, List.map_append, hmap inputs1, hmap inputs2, hins]
      have : arraySegment o1 = arraySegment o2 := by
        unfold arraySegment
        rw [hos, hot]
      rw [List.map_singleton, List.map_singleton, this]
    rw [hsegs]
  case inDim =>
    intro p xs ys x o ds es d d' hx hdd hkey
    have hseg := makeShaderKey_input_seg_inj p xs ys o hkey
    have hshape := arraySegment_shape_inj hseg rfl
    rw [hx] at hshape
    exact hdd (shapeToString_dim_inj ds es hshape)
  case inTexR =>
    intro p xs ys x o r c r' hx hrr hkey
    have hseg := makeShaderKey_input_seg_inj p xs ys o hkey
    have htex := arraySegment_tex_inj hseg rfl
    rw [hx] at htex
    exact hrr (texShapeToString_fst_inj htex)
  case inTexC =>
    intro p xs ys x o r c c' hx hcc hkey
    have hseg := makeShaderKey_input_seg_inj p xs ys o hkey
    have htex := arraySegment_tex_inj hseg rfl
    rw [hx] at htex
    exact hcc (texShapeToString_snd_inj htex)
  case outDim =>
    intro p inputs o ds es d d' ho hdd hkey
    have hseg := makeShaderKey_output_seg_inj p inputs hkey
    have hshape := arraySegment_shape_inj hseg rfl
    rw [ho] at hshape
    exact hdd (shapeToString_dim_inj ds es hshape)
  case outTexR =>
    intro p inputs o r c r' ho hrr hkey
    have hseg := makeShaderKey_output_seg_inj p inputs hkey
    have htex := arraySegment_tex_inj hseg rfl
    rw [ho] at htex
    exact hrr (texShapeToString_fst_inj htex)
  case outTexC =>
    intro p inputs o r c c' ho hcc hkey
    have hseg := makeShaderKey_output_seg_inj p inputs hkey
    have htex := arraySegment_tex_inj hseg rfl
    rw [ho] at htex
    exact hcc (texShapeToString_snd_inj htex)

/-! ## Validation and execution lemmas -/

theorem except_bind_unit_ok {ε α : Type} (a : Except ε Unit) (b : Except ε α) (y : α) :
    (a >>= fun _ => b) = .ok y ↔ a = .ok () ∧ b = .ok y := by
  cases a with
  | error e => simp [Bind.bind, Except.bind]
  | ok u => cases u; simp [Bind.bind, Except.bind]

theorem validatePair_ok_iff (s : ShapeInfo) (x : NDArray) :
    validatePair s x = .ok () ↔
      (s.logicalShape = x.shape ∧ s.texShape = x.texShapeRC) := by
  unfold validatePair
  by_cases h1 : s.logicalShape = x.shape <;>
    by_cases h2 : s.texShape = x.texShapeRC <;> simp [h1, h2]

theorem validatePair_error (s : ShapeInfo) (x : NDArray) {e : EngineError}
    (h : validatePair s x = .error e) :
    (∃ a b, a ≠ b ∧ e = .logicalShapeMismatch a b) ∨
    (∃ a b, a ≠ b ∧ e = .textureShapeMismatch a b) := by
  unfold validatePair at h
  by_cases h1 : s.logicalShape = x.shape
  · by_cases h2 : s.texShape = x.texShapeRC
    · simp [h1, h2] at h
    · simp only [h1, h2, if_neg, if_pos, ne_eq, not_true_eq_false, not_false_eq_true,
        if_true, if_false, Except.error.injEq] at h
      exact .inr ⟨s.texShape, x.texShapeRC, h2, h.symm⟩
  · simp only [h1, ne_eq, not_false_eq_true, if_true, Except.error.injEq] at h
    exact .inl ⟨s.logicalShape, x.shape, h1, h.symm⟩

theorem validatePairs_ok_iff :
    ∀ (ss : List ShapeInfo) (xs : List NDArray),
      validatePairs ss xs = .ok () ↔
        ∀ p ∈ ss.zip xs, p.1.logicalShape = p.2.shape ∧ p.1.texShape = p.2.texShapeRC := by
  intro ss
  induction ss with
  | nil => intro xs; simp [validatePairs]
  | cons s ss ih =>
    intro xs
    cases xs with
    | nil => simp [validatePairs]
    | cons x xs =>
      show (validatePair s x >>= fun _ => validatePairs ss xs) = .ok () ↔ _
      rw [except_bind_unit_ok, validatePair_ok_iff, ih xs]
      simp

theorem validatePairs_error :
    ∀ (ss : List ShapeInfo) (xs : List NDArray) {e : EngineError},
      validatePairs ss xs = .error e →
      (∃ a b, a ≠ b ∧ e = .logicalShapeMismatch a b) ∨
      (∃ a b, a ≠ b ∧ e = .textureShapeMismatch a b) := by
  intro ss
  induction ss with
  | nil => intro xs e h; simp [validatePairs] at h
  | cons s ss ih =>
    intro xs e h
    cases xs with
    | nil => simp [validatePairs] at h
    | cons x xs =>
      replace h : (validatePair s x >>= fun _ => validatePairs ss xs) = .error e := h
      cases hv : validatePair s x with
      | error e1 =>
        rw [hv] at h
        simp [Bind.bind, Except.bind] at h
        exact h ▸ validatePair_error s x hv
      | ok u =>
        cases u
        rw [hv] at h
        simp only [Bind.bind, Except.bind] at h
        exact ih xs h

theorem validateBinaryAndProgram_ok_iff (ss : List ShapeInfo) (xs : List NDArray) :
    validateBinaryAndProgram ss xs = .ok () ↔
      (ss.length = xs.length ∧
       ∀ p ∈ ss.zip xs, p.1.logicalShape = p.2.shape ∧ p.1.texShape = p.2.texShapeRC) := by
  unfold validateBinaryAndProgram
  by_cases hl : ss.length = xs.length
  · simp [hl, validatePairs_ok_iff]
  · simp [hl]

theorem validateBinaryAndProgram_error (ss : List ShapeInfo) (xs : List NDArray)
    {e : EngineError} (h : validateBinaryAndProgram ss xs = .error e) :
    (∃ m n, m ≠ n ∧ e = .arityMismatch m n) ∨
    (∃ a b, a ≠ b ∧ e = .logicalShapeMismatch a b) ∨
    (∃ a b, a ≠ b ∧ e = .textureShapeMismatch a b) := by
  unfold validateBinaryAndProgram at h
  by_cases hl : ss.length = xs.length
  · simp only [hl, ne_eq, not_true_eq_false, if_false] at h
    rcases validatePairs_error ss xs h with h1 | h2
    · exact .inr (.inl h1)
    · exact .inr (.inr h2)
  · simp only [hl, ne_eq, not_false_eq_true, if_true, Except.error.injEq] at h
    exact .inl ⟨ss.length, xs.length, hl, h.symm⟩

theorem validateBinaryAndProgram_arity (ss : List ShapeInfo) (xs : List NDArray)
    (h : ss.length ≠ xs.length) :
    validateBinaryAndProgram ss xs = .error (.arityMismatch ss.length xs.length) := by
  unfold validateBinaryAndProgram
  simp [h]

theorem runProgram_error_of_input_error (ctx : GPGPUContext) (binary : GPGPUBinary)
    (inputs : List NDArray) (output : NDArray) (hasCustomSetup : Bool)
    {e : EngineError}
    (h : validateBinaryAndProgram binary.inShapeInfos inputs = .error e) :
    runProgram ctx binary inputs output hasCustomSetup = .error e := by
  unfold runProgram
  rw [h]
  rfl

theorem runProgram_error_of_output_error (ctx : GPGPUContext) (binary : GPGPUBinary)
    (inputs : List NDArray) (output : NDArray) (hasCustomSetup : Bool)
    {e : EngineError}
    (hin : validateBinaryAndProgram binary.inShapeInfos inputs = .ok ())
    (h : validateBinaryAndProgram [binary.outShapeInfo] [output] = .error e) :
    runProgram ctx binary inputs output hasCustomSetup = .error e := by
  unfold runProgram
  rw [hin, h]
  rfl

/-- Expected trace of the input-binding loop: input `i` is bound to the
sampler named `variableNames[i]` on texture unit `i`, in list order. -/
def bindEffects (names : List String) : List NDArray → Nat → List GLEffect
  | [], _ => []
  | input :: rest, i =>
    GLEffect.bindTextureToUniformSampler input.texture (names.getD i "") i ::
      bindEffects names rest (i + 1)

theorem setInputMatrixTexture_ok (ctx : GPGPUContext) (t : Nat) (n : String) (u : Nat)
    (h1 : ctx.disposed = false) (h2 : ctx.program.isNone = false) :
    ctx.setInputMatrixTexture t n u =
      .ok (ctx, [GLEffect.bindTextureToUniformSampler t n u]) := by
  unfold GPGPUContext.setInputMatrixTexture GPGPUContext.throwIfDisposed
    GPGPUContext.throwIfNoProgram
  rw [h1, h2]
  rfl

theorem bindInputs_ok (names : List String) :
    ∀ (inputs : List NDArray) (ctx : GPGPUContext) (i : Nat),
      ctx.disposed = false → ctx.program.isNone = false →
      bindInputs names ctx inputs i = .ok (ctx, bindEffects names inputs i) := by
  intro inputs
  induction inputs with
  | nil => intro ctx i _ _; rfl
  | cons input rest ih =>
    intro ctx i h1 h2
    show (ctx.setInputMatrixTexture input.texture (names.getD i "") i >>= fun p =>
      bindInputs names p.1 rest (i + 1) >>= fun q => .ok (q.1, p.2 ++ q.2)) = _
    rw [setInputMatrixTexture_ok ctx _ _ _ h1 h2]
    show (bindInputs names ctx rest (i + 1) >>= fun q =>
      .ok (q.1, [GLEffect.bindTextureToUniformSampler input.texture (names.getD i "") i]
        ++ q.2)) = _
    rw [ih ctx (i + 1) h1 h2]
    rfl

/-- Context state after a successful `runProgram`: the output texture is the
bound render target and the framebuffer attachment, and the binary program is
the active program. -/
def runSuccessState (ctx : GPGPUContext) (binary : GPGPUBinary) (output : NDArray) :
    GPGPUContext :=
  { ctx with outputTexture := some output.texture, fbAttachment := some output.texture,
             program := some binary.webGLProgram }

/-- The full GL trace of a successful `runProgram`, in execution order:
bind the output as render target (with its viewport and scissor rectangle),
bind the program, bind each input in `variableNames` order, run the custom
setup hook when one was supplied, then draw. -/
def runSuccessTrace (ctx : GPGPUContext) (binary : GPGPUBinary) (inputs : List NDArray)
    (output : NDArray) (hasCustomSetup : Bool) : List GLEffect :=
  [GLEffect.bindColorTextureToFramebuffer output.texture] ++
  (if ctx.autoDebugValidate then [GLEffect.validateFramebuffer] else []) ++
  [GLEffect.viewport 0 0 output.texShapeRC.2 output.texShapeRC.1,
   GLEffect.scissor 0 0 output.texShapeRC.2 output.texShapeRC.1] ++
  (if ctx.autoDebugValidate then [GLEffect.validateProgram] else []) ++
  [GLEffect.useProgram (some binary.webGLProgram)] ++
  bindEffects binary.program.variableNames inputs 0 ++
  (if hasCustomSetup then [GLEffect.customSetup] else []) ++
  [GLEffect.bindVertexAttribs] ++
  (if ctx.autoDebugValidate then [GLEffect.validateProgram, GLEffect.validateFramebuffer]
   else []) ++
  [GLEffect.drawElements]

theorem runProgram_ok (ctx : GPGPUContext) (binary : GPGPUBinary)
    (inputs : List NDArray) (output : NDArray) (hasCustomSetup : Bool)
    (hd : ctx.disposed = false)
    (hin : validateBinaryAndProgram binary.inShapeInfos inputs = .ok ())
    (hout : validateBinaryAndProgram [binary.outShapeInfo] [output] = .ok ()) :
    runProgram ctx binary inputs output hasCustomSetup =
      .ok (runSuccessState ctx binary output,
           runSuccessTrace ctx binary inputs output hasCustomSetup) := by
  unfold runProgram
  rw [hin, hout]
  simp [GPGPUContext.setOutputMatrixTexture, GPGPUContext.setOutputMatrixTextureDriver,
    GPGPUContext.setProgram, GPGPUContext.executeProgram, GPGPUContext.throwIfDisposed,
    GPGPUContext.throwIfNoProgram, GPGPUContext.debugValidateEffects, hd,
    bindInputs_ok, runSuccessState, runSuccessTrace, Bind.bind, Except.bind,
    List.append_assoc]

/-- The shape infos captured for a list of arrays. -/
def snapshotInfos (l : List NDArray) : List ShapeInfo :=
  l.map fun x => ⟨x.shape, x.texShapeRC⟩

/-- The shader source `compileProgram` hands to the GPU context. -/
def compiledSource (program : GPGPUProgram) (inputs : List NDArray)
    (output : NDArray) : String :=
  makeShader
    (inputs.enum.map fun p =>
      (program.variableNames.getD p.1 "", ⟨p.2.shape, p.2.texShapeRC⟩))
    ⟨output.shape, output.texShapeRC⟩ program.userCode
    (program.supportsBroadcasting == some true)

theorem enumFrom_map_snd_shape (program : GPGPUProgram) :
    ∀ (l : List NDArray) (n : Nat),
      ((List.enumFrom n l).map fun p =>
        (program.variableNames.getD p.1 "",
         ShapeInfo.mk p.2.shape p.2.texShapeRC)).map Prod.snd
      = snapshotInfos l := by
  intro l
  induction l with
  | nil => intro n; rfl
  | cons x xs ih =>
    intro n
    simp only [List.enumFrom_cons, List.map_cons, snapshotInfos]
    rw [show ((List.enumFrom (n + 1) xs).map fun p =>
      (program.variableNames.getD p.1 "",
       ShapeInfo.mk p.2.shape p.2.texShapeRC)).map Prod.snd = snapshotInfos xs from ih (n + 1)]
    rfl

/-- C7: `compileProgram` always compiles: on a live context every call
derives a `ShapeInfo` for each input and the output, invokes the shader
compiler on them with the user code and broadcasting flag, hands the
generated source to the GPU context to compile and link (the
`compileAndLink` effect appears in the trace of every call — there is no
internal memoization), and the returned binary snapshots exactly the shapes
the inputs and output had at compile time. -/
theorem compileProgram_always_compiles_and_snapshots (ctx : GPGPUContext)
    (program : GPGPUProgram) (inputs : List NDArray) (output : NDArray)
    (hd : ctx.disposed = false) :
    compileProgram ctx program inputs output =
      .ok ({ webGLProgram := ctx.nextProgramId, program := program,
             source := compiledSource program inputs output,
             inShapeInfos := snapshotInfos inputs,
             outShapeInfo := ⟨output.shape, output.texShapeRC⟩ },
           { ctx with nextProgramId := ctx.nextProgramId + 1 },
           [GLEffect.compileAndLink (compiledSource program inputs output)] ++
           (if ctx.autoDebugValidate then [GLEffect.validateProgram] else [])) := by
  unfold compileProgram GPGPUContext.createProgram GPGPUContext.throwIfDisposed
  rw [hd]
  simp only [Bind.bind, Except.bind]
  rw [show List.enum inputs = List.enumFrom 0 inputs from rfl,
      enumFrom_map_snd_shape program inputs 0]
  rfl

/-- C1: `runProgram` checks every input pair and the output pair of
`(logicalShape, textureShape)` against the compiled snapshot (first
conjunct); a validation failure produces an error carrying both compared
values, which indeed differ (second conjunct); that failure makes
`runProgram` return exactly the validation error (third and fourth
conjuncts) — and since an `Except.error` result carries no new context and
no GL effects, the failure happens before any binding or execution side
effect and leaves the engine state unchanged; finally, after a failed call,
a later call on the same unchanged context with matching shapes still
succeeds (fifth conjunct). -/
theorem runProgram_validates_shapes_before_effects :
    (∀ (ss : List ShapeInfo) (xs : List NDArray),
      validateBinaryAndProgram ss xs = .ok () ↔
        (ss.length = xs.length ∧
         ∀ p ∈ ss.zip xs,
           p.1.logicalShape = p.2.shape ∧ p.1.texShape = p.2.texShapeRC)) ∧
    (∀ (ss : List ShapeInfo) (xs : List NDArray) (e : EngineError),
      validateBinaryAndProgram ss xs = .error e →
      (∃ m n, m ≠ n ∧ e = .arityMismatch m n) ∨
      (∃ a b, a ≠ b ∧ e = .logicalShapeMismatch a b) ∨
      (∃ a b, a ≠ b ∧ e = .textureShapeMismatch a b)) ∧
    (∀ (ctx : GPGPUContext) (binary : GPGPUBinary) (inputs : List NDArray)
        (output : NDArray) (hasCustomSetup : Bool) (e : EngineError),
      validateBinaryAndProgram binary.inShapeInfos inputs = .error e →
      runProgram ctx binary inputs output hasCustomSetup = .error e) ∧
    (∀ (ctx : GPGPUContext) (binary : GPGPUBinary) (inputs : List NDArray)
        (output : NDArray) (hasCustomSetup : Bool) (e : EngineError),
      validateBinaryAndProgram binary.inShapeInfos inputs = .ok () →
      validateBinaryAndProgram [binary.outShapeInfo] [output] = .error e →
      runProgram ctx binary inputs output hasCustomSetup = .error e) ∧
    (∀ (ctx : GPGPUContext) (b1 : GPGPUBinary) (i1 : List NDArray) (o1 : NDArray)
        (c1 : Bool) (e : EngineError) (b2 : GPGPUBinary) (i2 : List NDArray)
        (o2 : NDArray) (c2 : Bool),
      runProgram ctx b1 i1 o1 c1 = .error e →
      ctx.disposed = false →
      validateBinaryAndProgram b2.inShapeInfos i2 = .ok () →
      validateBinaryAndProgram [b2.outShapeInfo] [o2] = .ok () →
      (runProgram ctx b2 i2 o2 c2).isOk = true) := by
  refine ⟨validateBinaryAndProgram_ok_iff, ?_, ?_, ?_, ?_⟩
  · exact fun ss xs e h => validateBinaryAndProgram_error ss xs h
  · exact fun ctx binary inputs output hcs e h =>
      runProgram_error_of_input_error ctx binary inputs output hcs h
  · exact fun ctx binary inputs output hcs e hin h =>
      runProgram_error_of_output_error ctx binary inputs output hcs hin h
  · intro ctx b1 i1 o1 c1 e b2 i2 o2 c2 _ hd hin hout
    rw [runProgram_ok ctx b2 i2 o2 c2 hd hin hout]
    rfl

/-- C2: on a live context, when both shape validations succeed, `runProgram`
returns the state in which the output texture is bound as render target and
the binary program is active, and its GL trace is exactly
`runSuccessTrace`: bind the output texture as render target (viewport and
scissor set), bind the program, bind each input texture to its
`variableNames`-named slot in order, emit the custom setup invocation when a
hook was supplied, then execute the draw. -/
theorem runProgram_success_sequence (ctx : GPGPUContext) (binary : GPGPUBinary)
    (inputs : List NDArray) (output : NDArray) (hasCustomSetup : Bool)
    (hd : ctx.disposed = false)
    (hin : validateBinaryAndProgram binary.inShapeInfos inputs = .ok ())
    (hout : validateBinaryAndProgram [binary.outShapeInfo] [output] = .ok ()) :
    runProgram ctx binary inputs output hasCustomSetup =
      .ok (runSuccessState ctx binary output,
           runSuccessTrace ctx binary inputs output hasCustomSetup) :=
  runProgram_ok ctx binary inputs output hasCustomSetup hd hin hout

/-- C9: a binary compiled with `N` inputs and executed with `M ≠ N` inputs is
rejected with an error reporting both counts.  The equation holds for every
input list of the wrong length — even one whose shapes also mismatch — so the
arity check precedes any per-input shape comparison; and since the result is
an `Except.error`, it precedes any binding side effect. -/
theorem runProgram_arity_check :
    (∀ (ss : List ShapeInfo) (xs : List NDArray),
      ss.length ≠ xs.length →
      validateBinaryAndProgram ss xs =
        .error (.arityMismatch ss.length xs.length)) ∧
    (∀ (ctx : GPGPUContext) (binary : GPGPUBinary) (inputs : List NDArray)
        (output : NDArray) (hasCustomSetup : Bool),
      binary.inShapeInfos.length ≠ inputs.length →
      runProgram ctx binary inputs output hasCustomSetup =
        .error (.arityMismatch binary.inShapeInfos.length inputs.length)) := by
  refine ⟨validateBinaryAndProgram_arity, ?_⟩
  intro ctx binary inputs output hcs h
  exact runProgram_error_of_input_error ctx binary inputs output hcs
    (validateBinaryAndProgram_arity binary.inShapeInfos inputs h)

/-- C4 (amended): every public operation of `GPGPUContext` except
`enableAutomaticDebugValidation` and `debugValidate` (which perform no
disposed check) and `setOutputPackedMatrixWriteRegion` (which throws a
not-implemented error unconditionally) fails fast with the synchronous
disposed-context UsageError when invoked after `dispose`; and
`getUniformLocation`, `setInputMatrixTexture` and `executeProgram` fail with
the no-program UsageError when no program is bound. -/
theorem gpgpu_context_usage_guards :
    (∀ ctx : GPGPUContext, ctx.disposed = true →
      ctx.dispose = .error .disposedContext ∧
      (∀ r c, ctx.createMatrixTexture r c = .error .disposedContext) ∧
      (∀ t px, ctx.uploadPixelDataToTexture t px = .error .disposedContext) ∧
      (∀ r c, ctx.createPackedMatrixTexture r c = .error .disposedContext) ∧
      (∀ t, ctx.deleteMatrixTexture t = .error .disposedContext) ∧
      (∀ t r c m, ctx.uploadMatrixToTexture t r c m = .error .disposedContext) ∧
      (∀ t r c m, ctx.uploadMatrixToPackedTexture t r c m = .error .disposedContext) ∧
      (∀ t r c, ctx.downloadMatrixFromTexture t r c = .error .disposedContext) ∧
      (∀ t r c, ctx.downloadMatrixFromPackedTexture t r c = .error .disposedContext) ∧
      (∀ src, ctx.createProgram src = .error .disposedContext) ∧
      (∀ p, ctx.deleteProgram p = .error .disposedContext) ∧
      (∀ p, ctx.setProgram p = .error .disposedContext) ∧
      (∀ n, ctx.getUniformLocation n = .error .disposedContext) ∧
      (∀ t n u, ctx.setInputMatrixTexture t n u = .error .disposedContext) ∧
      (∀ t r c, ctx.setOutputMatrixTexture t r c = .error .disposedContext) ∧
      (∀ t r c, ctx.setOutputPackedMatrixTexture t r c = .error .disposedContext) ∧
      (∀ a b c d, ctx.setOutputMatrixWriteRegion a b c d = .error .disposedContext) ∧
      ctx.executeProgram = .error .disposedContext ∧
      ctx.blockUntilAllProgramsCompleted = .error .disposedContext) ∧
    (∀ ctx : GPGPUContext, ctx.disposed = false → ctx.program = none →
      (∀ n, ctx.getUniformLocation n = .error .noProgramSet) ∧
      (∀ t n u, ctx.setInputMatrixTexture t n u = .error .noProgramSet) ∧
      ctx.executeProgram = .error .noProgramSet) ∧
    (∀ (ctx : GPGPUContext) (a b c d : Nat),
      ctx.setOutputPackedMatrixWriteRegion a b c d =
        .error (.notImplemented "setOutputPackedMatrixWriteRegion not implemented.")) := by
  refine ⟨?_, ?_, fun ctx a b c d => rfl⟩
  · intro ctx hd
    refine ⟨?_, ?_, ?_, ?_, ?_, ?_, ?_, ?_, ?_, ?_, ?_, ?_, ?_, ?_, ?_, ?_, ?_, ?_, ?_⟩ <;>
      intros <;>
      simp [GPGPUContext.dispose, GPGPUContext.createMatrixTexture,
        GPGPUContext.uploadPixelDataToTexture, GPGPUContext.createPackedMatrixTexture,
        GPGPUContext.deleteMatrixTexture, GPGPUContext.uploadMatrixToTexture,
        GPGPUContext.uploadMatrixToPackedTexture, GPGPUContext.downloadMatrixFromTexture,
        GPGPUContext.downloadMatrixFromPackedTexture, GPGPUContext.downloadMatrixDriver,
        GPGPUContext.createProgram, GPGPUContext.deleteProgram, GPGPUContext.setProgram,
        GPGPUContext.getUniformLocation, GPGPUContext.setInputMatrixTexture,
        GPGPUContext.setOutputMatrixTexture, GPGPUContext.setOutputMatrixTextureDriver,
        GPGPUContext.setOutputPackedMatrixTexture, GPGPUContext.setOutputMatrixWriteRegion,
        GPGPUContext.setOutputMatrixWriteRegionDriver, GPGPUContext.executeProgram,
        GPGPUContext.blockUntilAllProgramsCompleted, GPGPUContext.throwIfDisposed,
        GPGPUContext.throwIfNoProgram, hd, Bind.bind, Except.bind]
  · intro ctx hd hp
    refine ⟨?_, ?_, ?_⟩ <;> intros <;>
      simp [GPGPUContext.getUniformLocation, GPGPUContext.setInputMatrixTexture,
        GPGPUContext.executeProgram, GPGPUContext.throwIfDisposed,
        GPGPUContext.throwIfNoProgram, hd, hp, Bind.bind, Except.bind]

/-- The terminal state used to refute the unrestricted form of the claim. -/
def disposedCtx : GPGPUContext := { disposed := true }

/-- C4 counterexample: `enableAutomaticDebugValidation` is a public operation
of `GPGPUContext` with no disposed check: invoked on a disposed context it
succeeds (and even mutates the validation flag) instead of failing with a
UsageError, refuting the claim that every public operation fails fast after
dispose. -/
theorem enableAutomaticDebugValidation_succeeds_after_dispose :
    disposedCtx.disposed = true ∧
    disposedCtx.enableAutomaticDebugValidation true =
      .ok ({ disposedCtx with autoDebugValidate := true },
           [GLEffect.enableDebugErrorChecking true]) :=
  ⟨rfl, rfl⟩

/-- GL trace of `dispose`: one leak warning per still-bound resource, then
the teardown sequence releasing the framebuffer and both buffers. -/
def disposeTrace (ctx : GPGPUContext) : List GLEffect :=
  (if ctx.program.isSome then [GLEffect.warn GPGPUContext.programLeakWarning] else []) ++
  (if ctx.outputTexture.isSome then [GLEffect.warn GPGPUContext.outputTextureLeakWarning]
   else []) ++
  [GLEffect.finish, GLEffect.bindFramebufferNull, GLEffect.deleteFramebuffer,
   GLEffect.bindArrayBufferNull, GLEffect.deleteVertexBuffer,
   GLEffect.bindElementArrayBufferNull, GLEffect.deleteIndexBuffer,
   GLEffect.loseContext]

set_option maxRecDepth 4000 in
/-- C5: disposing a live context never fails, whatever is still bound: it
emits exactly one leak warning for a still-bound program and exactly one for
a still-bound output texture (and none otherwise), still deletes the
framebuffer and the vertex and index buffers, and marks the context
disposed. -/
theorem dispose_leak_diagnostics (ctx : GPGPUContext) (hd : ctx.disposed = false) :
    ctx.dispose = .ok ({ ctx with disposed := true }, disposeTrace ctx) ∧
    (disposeTrace ctx).count (GLEffect.warn GPGPUContext.programLeakWarning) =
      (if ctx.program.isSome then 1 else 0) ∧
    (disposeTrace ctx).count (GLEffect.warn GPGPUContext.outputTextureLeakWarning) =
      (if ctx.outputTexture.isSome then 1 else 0) ∧
    GLEffect.deleteFramebuffer ∈ disposeTrace ctx ∧
    GLEffect.deleteVertexBuffer ∈ disposeTrace ctx ∧
    GLEffect.deleteIndexBuffer ∈ disposeTrace ctx := by
  refine ⟨?_, ?_, ?_, ?_, ?_, ?_⟩
  · unfold GPGPUContext.dispose GPGPUContext.throwIfDisposed disposeTrace
    rw [hd]
    rfl
  all_goals
    cases hp : ctx.program.isSome <;> cases ht : ctx.outputTexture.isSome <;>
      simp [disposeTrace, hp, ht] <;> decide

/-- C6: deleting the currently active program clears the bound-program slot
(the slot never dangles on a deleted program), and deleting the currently
bound output texture unbinds it from the framebuffer and clears the
bound-output slot before the GL delete of the texture — the `deleteTexture`
effect follows the unbind in the trace. -/
theorem delete_active_resources_clears_slots :
    (∀ (ctx : GPGPUContext) (p : Nat), ctx.disposed = false → ctx.program = some p →
      ctx.deleteProgram (some p) =
        .ok ({ ctx with program := none }, [GLEffect.deleteProgramGL p])) ∧
    (∀ (ctx : GPGPUContext) (t : Nat), ctx.disposed = false →
      ctx.outputTexture = some t →
      ctx.deleteMatrixTexture t =
        .ok ({ ctx with outputTexture := none, fbAttachment := none },
             [GLEffect.unbindColorTextureFromFramebuffer, GLEffect.deleteTexture t])) := by
  constructor
  · intro ctx p hd hp
    unfold GPGPUContext.deleteProgram GPGPUContext.throwIfDisposed
    rw [hd, hp]
    simp [Bind.bind, Except.bind]
  · intro ctx t hd ht
    unfold GPGPUContext.deleteMatrixTexture GPGPUContext.throwIfDisposed
    rw [hd, ht]
    simp [Bind.bind, Except.bind]

/-- C8: `setOutputMatrixTexture(texture, rows, columns)` binds the texture to
the framebuffer as render target and sets both the viewport and the scissor
rectangle at origin with width equal to the logical columns and height equal
to the logical rows — the row/column pair is swapped into GL
`(width, height)` order. -/
theorem setOutputMatrixTexture_inverts_coordinates (ctx : GPGPUContext)
    (texture rows columns : Nat) (hd : ctx.disposed = false) :
    ctx.setOutputMatrixTexture texture rows columns =
      .ok ({ ctx with outputTexture := some texture, fbAttachment := some texture },
        [GLEffect.bindColorTextureToFramebuffer texture] ++
        (if ctx.autoDebugValidate then [GLEffect.validateFramebuffer] else []) ++
        [GLEffect.viewport 0 0 columns rows, GLEffect.scissor 0 0 columns rows]) := by
  unfold GPGPUContext.setOutputMatrixTexture GPGPUContext.setOutputMatrixTextureDriver
    GPGPUContext.throwIfDisposed
  rw [hd]
  rfl

/-- Framebuffer restore trace after a download: the bound output texture, if
any, is re-attached (re-validated in debug mode); otherwise the colour
attachment is left unbound. -/
def downloadRestoreTrace (ctx : GPGPUContext) : List GLEffect :=
  match ctx.outputTexture with
  | some outTex =>
      [GLEffect.bindColorTextureToFramebuffer outTex] ++
      (if ctx.autoDebugValidate then [GLEffect.validateFramebuffer] else [])
  | none => [GLEffect.unbindColorTextureFromFramebuffer]

/-- C10: both downloads temporarily attach the requested texture to the
framebuffer, read it back, and then restore the framebuffer: the bound
output texture, if any, is re-attached, otherwise the colour attachment is
left unbound (the final `fbAttachment` equals `outputTexture`); and a
download never changes the bound-program or bound-output-texture slots. -/
theorem download_restores_framebuffer :
    (∀ (ctx : GPGPUContext) (texture rows columns : Nat), ctx.disposed = false →
      ctx.downloadMatrixFromTexture texture rows columns =
        .ok ({ ctx with fbAttachment := ctx.outputTexture },
          GLEffect.bindColorTextureToFramebuffer texture ::
            [GLEffect.readPixels rows columns false] ++ downloadRestoreTrace ctx)) ∧
    (∀ (ctx : GPGPUContext) (texture rows columns : Nat), ctx.disposed = false →
      ctx.downloadMatrixFromPackedTexture texture rows columns =
        .ok ({ ctx with fbAttachment := ctx.outputTexture },
          GLEffect.bindColorTextureToFramebuffer texture ::
            [GLEffect.readPixels rows columns true] ++ downloadRestoreTrace ctx)) ∧
    (∀ (ctx : GPGPUContext) (texture : Nat) (decode : List GLEffect)
        (ctx' : GPGPUContext) (eff : List GLEffect),
      ctx.downloadMatrixDriver texture decode = .ok (ctx', eff) →
      ctx'.program = ctx.program ∧ ctx'.outputTexture = ctx.outputTexture ∧
      ctx'.fbAttachment = ctx.outputTexture) := by
  refine ⟨?_, ?_, ?_⟩
  · intro ctx texture rows columns hd
    unfold GPGPUContext.downloadMatrixFromTexture GPGPUContext.downloadMatrixDriver
      GPGPUContext.throwIfDisposed
    rw [hd]
    rfl
  · intro ctx texture rows columns hd
    unfold GPGPUContext.downloadMatrixFromPackedTexture GPGPUContext.downloadMatrixDriver
      GPGPUContext.throwIfDisposed
    rw [hd]
    rfl
  · intro ctx texture decode ctx' eff h
    unfold GPGPUContext.downloadMatrixDriver GPGPUContext.throwIfDisposed at h
    cases hdc : ctx.disposed with
    | true =>
      rw [hdc] at h
      simp [Bind.bind, Except.bind] at h
    | false =>
      rw [hdc] at h
      simp only [Bind.bind, Except.bind, if_false, Bool.false_eq_true,
        Except.ok.injEq, Prod.mk.injEq] at h
      obtain ⟨h1, h2⟩ := h
      rw [← h1]
      exact ⟨rfl, rfl, rfl⟩

/-! ## Concrete instances exercising the theorems -/

def ndarrA : NDArray := { shape := [2, 2], texShapeRC := (2, 2), texture := 11 }

def ndarrB : NDArray := { shape := [4], texShapeRC := (1, 4), texture := 12 }

def ndarrOut : NDArray := { shape := [2, 2], texShapeRC := (2, 2), texture := 13 }

def addProg : GPGPUProgram :=
  { constructorName := "AddProgram", variableNames := ["A", "B"],
    outputShape := [2, 2], params := [],
    userCode := "gl_FragColor = vec4(a + b, 0, 0, 0);",
    supportsBroadcasting := none }

def addBinary : GPGPUBinary :=
  { webGLProgram := 0, program := addProg, source := "src",
    inShapeInfos := [⟨[2, 2], (2, 2)⟩, ⟨[4], (1, 4)⟩],
    outShapeInfo := ⟨[2, 2], (2, 2)⟩ }

def freshCtx : GPGPUContext := {}

def leakyCtx : GPGPUContext := { program := some 1, outputTexture := some 2 }

def boundProgCtx : GPGPUContext := { program := some 7 }

def boundOutCtx : GPGPUContext := { outputTexture := some 9 }

/-- Executing `addBinary` with the second input replaced by a `[2, 2]` array
fails with the error naming the compiled shape `[4]` and the offered shape
`[2, 2]`, before any binding effect. -/
theorem runProgram_validates_witness :
    runProgram freshCtx addBinary [ndarrA, ndarrA] ndarrOut false =
      .error (.logicalShapeMismatch [4] [2, 2]) :=
  runProgram_validates_shapes_before_effects.2.2.1 freshCtx addBinary [ndarrA, ndarrA]
    ndarrOut false (.logicalShapeMismatch [4] [2, 2]) rfl

/-- A well-shaped execution of `addBinary` produces exactly the specified
bind-output, bind-program, bind-inputs, custom-setup, draw sequence. -/
theorem runProgram_sequence_witness :
    runProgram freshCtx addBinary [ndarrA, ndarrB] ndarrOut true =
      .ok (runSuccessState freshCtx addBinary ndarrOut,
           runSuccessTrace freshCtx addBinary [ndarrA, ndarrB] ndarrOut true) :=
  runProgram_success_sequence freshCtx addBinary [ndarrA, ndarrB] ndarrOut true rfl
    rfl rfl

/-- Changing one dimension of one input shape changes the shader key. -/
theorem makeShaderKey_witness :
    makeShaderKey addProg [ndarrA] ndarrOut ≠
      makeShaderKey addProg [{ ndarrA with shape := [2, 3] }] ndarrOut :=
  makeShaderKey_pure_and_shape_sensitive.2.1 addProg [] [] ndarrA ndarrOut [2] [] 2 3
    rfl (by decide)

/-- The guards at work on concrete contexts: a disposed context rejects
`createMatrixTexture`, and a fresh context with no bound program rejects
`getUniformLocation` and `executeProgram`. -/
theorem gpgpu_context_usage_guards_witness :
    GPGPUContext.createMatrixTexture disposedCtx 2 3 = .error .disposedContext ∧
    GPGPUContext.getUniformLocation freshCtx "u" = .error .noProgramSet ∧
    GPGPUContext.executeProgram freshCtx = .error .noProgramSet :=
  ⟨((gpgpu_context_usage_guards.1 disposedCtx rfl).2.1 2 3),
   ((gpgpu_context_usage_guards.2.1 freshCtx rfl rfl).1 "u"),
   (gpgpu_context_usage_guards.2.1 freshCtx rfl rfl).2.2⟩

/-- Disposing a context holding both a program and an output texture
succeeds and produces the two-warning teardown trace. -/
theorem dispose_leak_diagnostics_witness :
    GPGPUContext.dispose leakyCtx =
      .ok ({ leakyCtx with disposed := true }, disposeTrace leakyCtx) :=
  (dispose_leak_diagnostics leakyCtx rfl).1

/-- Deleting the active program and the bound output texture on concrete
contexts clears the corresponding slots. -/
theorem delete_active_resources_witness :
    GPGPUContext.deleteProgram boundProgCtx (some 7) =
      .ok ({ boundProgCtx with program := none }, [GLEffect.deleteProgramGL 7]) ∧
    GPGPUContext.deleteMatrixTexture boundOutCtx 9 =
      .ok ({ boundOutCtx with outputTexture := none, fbAttachment := none },
           [GLEffect.unbindColorTextureFromFramebuffer, GLEffect.deleteTexture 9]) :=
  ⟨delete_active_resources_clears_slots.1 boundProgCtx 7 rfl rfl,
   delete_active_resources_clears_slots.2 boundOutCtx 9 rfl rfl⟩

/-- Compiling `addProg` against concrete arrays snapshots their shapes. -/
theorem compileProgram_witness :
    compileProgram freshCtx addProg [ndarrA, ndarrB] ndarrOut =
      .ok ({ webGLProgram := 0, program := addProg,
             source := compiledSource addProg [ndarrA, ndarrB] ndarrOut,
             inShapeInfos := [⟨[2, 2], (2, 2)⟩, ⟨[4], (1, 4)⟩],
             outShapeInfo := ⟨[2, 2], (2, 2)⟩ },
           { freshCtx with nextProgramId := 1 },
           [GLEffect.compileAndLink (compiledSource addProg [ndarrA, ndarrB] ndarrOut)]) :=
  compileProgram_always_compiles_and_snapshots freshCtx addProg [ndarrA, ndarrB]
    ndarrOut rfl

/-- Logical rows 3, columns 4 become viewport and scissor width 4, height 3. -/
theorem setOutputMatrixTexture_witness :
    GPGPUContext.setOutputMatrixTexture freshCtx 5 3 4 =
      .ok ({ freshCtx with outputTexture := some 5, fbAttachment := some 5 },
        [GLEffect.bindColorTextureToFramebuffer 5,
         GLEffect.viewport 0 0 4 3, GLEffect.scissor 0 0 4 3]) :=
  setOutputMatrixTexture_inverts_coordinates freshCtx 5 3 4 rfl

/-- Executing `addBinary` (compiled for two inputs) with one input reports
both counts. -/
theorem runProgram_arity_witness :
    runProgram freshCtx addBinary [ndarrA] ndarrOut false =
      .error (.arityMismatch 2 1) :=
  runProgram_arity_check.2 freshCtx addBinary [ndarrA] ndarrOut false (by decide)

/-- Downloading texture 4 on a context whose bound output is texture 9
re-attaches texture 9 afterwards. -/
theorem download_restores_witness :
    GPGPUContext.downloadMatrixFromTexture boundOutCtx 4 2 3 =
      .ok ({ boundOutCtx with fbAttachment := some 9 },
        [GLEffect.bindColorTextureToFramebuffer 4, GLEffect.readPixels 2 3 false,
         GLEffect.bindColorTextureToFramebuffer 9]) :=
  download_restores_framebuffer.1 boundOutCtx 4 2 3 rfl
